import Mathlib

/-
Verification development for AutoHorse (src/app.py), a Streamlit front-end
that uploads a horse-racing data file to a webhook and renders the JSON
response as chat messages.

The embedding models the two module-level handlers of app.py as pure state
transformers:
  * the upload handler (app.py lines 67-97), including `run_analysis`
    (lines 24-42), and
  * the chat-input handler (lines 100-107).
Streamlit session state (`st.session_state.messages`,
`st.session_state.last_processed_file`) becomes an explicit `SessionState`.
Transient UI output (`st.error`, `st.write`, `st.json` renders that are not
appended to `st.session_state.messages`) is collected as a list of `UiEvent`.
Outbound HTTP requests made by `requests.post` are collected as
`OutboundCall` values; the behaviour of the transport is an input (`HttpOutcome`).
Python exceptions that escape the handler (NameError from the except branch
referencing the undefined `response`, AttributeError from `.get` on a
non-dict) are modelled with `Except PyError`; Streamlit persists
`st.session_state` across an uncaught exception, and in this program no
session-state mutation precedes any raise, so a crashed handler leaves the
state unchanged (`stepUpload`).
-/

/-- JSON values, as produced by `response.json()`.  Numbers are modelled as
integers; no claim involves non-integer numbers. -/
inductive Json where
  | null : Json
  | bool : Bool → Json
  | num : Int → Json
  | str : String → Json
  | arr : List Json → Json
  | obj : List (String × Json) → Json

/-- Python truthiness (`if results:`) of a JSON value: `None`, `False`, `0`,
`""`, `[]` and an empty dict are falsy, everything else is truthy. -/
def pyTruthy : Json → Bool
  | Json.null => false
  | Json.bool b => b
  | Json.num n => n != 0
  | Json.str s => s != ""
  | Json.arr xs => !xs.isEmpty
  | Json.obj fs => !fs.isEmpty

mutual

/-- Python `repr` of a JSON value (dicts and lists print with single-quoted
strings), used by `str`/f-string interpolation for containers. -/
def pyRepr : Json → String
  | Json.null => "None"
  | Json.bool true => "True"
  | Json.bool false => "False"
  | Json.num n => toString n
  | Json.str s => "\x27" ++ s ++ "\x27"
  | Json.arr xs => "[" ++ pyReprList xs ++ "]"
  | Json.obj fs => "\x7b" ++ pyReprFields fs ++ "\x7d"

/-- Comma-separated `repr`s of the elements of a JSON array. -/
def pyReprList : List Json → String
  | [] => ""
  | [x] => pyRepr x
  | x :: xs => pyRepr x ++ ", " ++ pyReprList xs

/-- Comma-separated `key: value` `repr`s of the fields of a JSON object. -/
def pyReprFields : List (String × Json) → String
  | [] => ""
  | [kv] => "\x27" ++ kv.1 ++ "\x27: " ++ pyRepr kv.2
  | kv :: kvs => "\x27" ++ kv.1 ++ "\x27: " ++ pyRepr kv.2 ++ ", " ++ pyReprFields kvs

end

/-- Python `str()` of a JSON value, as an f-string interpolates it
(`f"✅ Analysis Complete! \x7bpython_summary\x7d."`): strings interpolate as
themselves, scalars as their `str`, containers via `repr`. -/
def pyStr : Json → String
  | Json.str s => s
  | Json.null => "None"
  | Json.bool true => "True"
  | Json.bool false => "False"
  | Json.num n => toString n
  | Json.arr xs => pyRepr (Json.arr xs)
  | Json.obj fs => pyRepr (Json.obj fs)

/-- The uploaded file as the Streamlit uploader delivers it: `uploaded_file.name`,
`uploaded_file.getvalue()` (raw bytes, kept opaque as a string) and
`uploaded_file.type` (declared MIME type). -/
structure UploadedFile where
  name : String
  bytes : String
  mime : String

/-- One outbound `requests.post(MAKE_WEBHOOK_URL, files=...)`: a
multipart/form-data POST with a single part named `file` carrying
`(uploaded_file.name, uploaded_file.getvalue(), uploaded_file.type)`
(app.py lines 32, 35). -/
structure OutboundCall where
  url : String
  fieldName : String
  fileName : String
  fileBytes : String
  fileMime : String

/-- What the transport does for one `requests.post` call.  `raised` is an
exception (connection error, timeout) before any response object exists,
carrying the exception message; `response` is a received response with its
status code, body text (`response.text`) and the result of parsing the body
as JSON (`none` when `response.json()` would raise `JSONDecodeError`). -/
inductive HttpOutcome where
  | raised : String → HttpOutcome
  | response : Nat → String → Option Json → HttpOutcome

/-- The content of the `RequestException` whose `str` the code interpolates
into `st.error(f"An error occurred while contacting the analysis workflow: \x7be\x7d")`:
an exception raised before a response existed, an `HTTPError` from
`raise_for_status()`, or a `JSONDecodeError` from `response.json()` (a
`RequestException` since requests 2.27). -/
inductive TransportDetail where
  | exceptionBeforeResponse : String → TransportDetail
  | httpStatusError : Nat → TransportDetail
  | jsonDecodeError : TransportDetail

/-- Transient UI output: `st.error` renders (the configuration message, the
two error messages of the except branch) and the success-path renders that
are NOT appended to `st.session_state.messages` (`st.write` of the intro
line, `st.json` of the lean payload, app.py lines 88-91). -/
inductive UiEvent where
  | errorMsg : String → UiEvent
  | errorTransport : TransportDetail → UiEvent
  | errorBody : String → UiEvent
  | write : String → UiEvent
  | jsonView : Json → UiEvent

/-- A Python exception escaping the handler: `NameError` from the except
branch evaluating `response.text` when `requests.post` raised before
`response` was assigned (app.py line 41), or `AttributeError` from calling
`.get` on a non-dict (app.py lines 80, 91). -/
inductive PyError where
  | nameError : PyError
  | attributeError : PyError

/-- The observable effect of one `run_analysis` call: the outbound calls it
made, the transient UI events it produced, and its outcome — `Except.ok r`
models a normal return of `r` (`None` or parsed JSON), `Except.error`
models an escaping exception. -/
structure AnalysisResult where
  calls : List OutboundCall
  events : List UiEvent
  ret : Except PyError (Option Json)

/-- The `st.error` text for a missing webhook URL (app.py line 27). -/
def configMissingText : String :=
  "Webhook URL is not configured. Please set it in your Streamlit secrets."

/-- Model of `run_analysis` (app.py lines 24-42).  `cfg` is
`st.secrets.get("MAKE_WEBHOOK_URL")` (`none` when the secret is absent;
Python `not MAKE_WEBHOOK_URL` is also true for the empty string).
`raise_for_status()` raises `HTTPError` exactly for statuses in
[400, 600); any other final status (2xx, but also e.g. 300, a
Location-less 3xx that requests did not follow, or a status ≥ 600)
reaches `return response.json()`.  A body that is not valid JSON then
makes `response.json()` raise `JSONDecodeError`, which
`except requests.exceptions.RequestException` catches (it is a
`RequestException` since requests 2.27), so both `st.error` calls run (a
response object exists) and the function returns `None`.  When the post
itself raised, the first `st.error` runs but the second evaluates the
undefined `response`, raising `NameError`. -/
def run_analysis (cfg : Option String) (f : UploadedFile) (out : HttpOutcome) :
    AnalysisResult :=
  match cfg with
  | none => ⟨[], [UiEvent.errorMsg configMissingText], Except.ok none⟩
  | some url =>
    if url = "" then ⟨[], [UiEvent.errorMsg configMissingText], Except.ok none⟩
    else
      let call : OutboundCall := ⟨url, "file", f.name, f.bytes, f.mime⟩
      match out with
      | HttpOutcome.raised msg =>
          ⟨[call], [UiEvent.errorTransport (TransportDetail.exceptionBeforeResponse msg)],
           Except.error PyError.nameError⟩
      | HttpOutcome.response status text js =>
          if 400 ≤ status ∧ status < 600 then
            ⟨[call],
             [UiEvent.errorTransport (TransportDetail.httpStatusError status),
              UiEvent.errorBody text],
             Except.ok none⟩
          else
            match js with
            | some j => ⟨[call], [], Except.ok (some j)⟩
            | none =>
                ⟨[call],
                 [UiEvent.errorTransport TransportDetail.jsonDecodeError,
                  UiEvent.errorBody text],
                 Except.ok none⟩

/-- The content of a chat message: a string, or a dict/list rendered by `st.json`
(app.py lines 54-58). -/
inductive Content where
  | text : String → Content
  | json : Json → Content

/-- One entry of `st.session_state.messages`. -/
structure Message where
  role : String
  content : Content

/-- The session state the handlers read and mutate:
`st.session_state.messages` and `st.session_state.last_processed_file`
(`none` models the key being absent). -/
structure SessionState where
  messages : List Message
  last_processed_file : Option String

/-- The state after initialization (app.py lines 48-49): one seeded
assistant greeting, no last-processed file. -/
def initState : SessionState :=
  { messages := [⟨"assistant", Content.text "Hello! Please upload your DRF file to begin."⟩],
    last_processed_file := none }

/-- The `st.write` intro line rendered above the lean payload
(app.py line 89). -/
def leanIntroText : String :=
  "Here is the processed \x27Lean\x27 data ready for AI analysis:"

/-- The observable effect of one run of the upload handler: the resulting
session state (`Except.error` when a Python exception escapes), the outbound
calls made, and the transient UI events. -/
structure HandlerResult where
  state : Except PyError SessionState
  calls : List OutboundCall
  events : List UiEvent

/-- Model of the module-level upload handler (app.py lines 67-97) for one
uploaded file.  The guard (line 69) skips everything when
`st.session_state.get("last_processed_file") == uploaded_file.name`.
Otherwise `run_analysis` runs; a falsy result (`None` or falsy JSON,
including the empty object) ends the run with no new messages (`if results:`
line 78).  On a truthy result, `results.get("data", \x7b\x7d)` requires
`results` to be a dict (else AttributeError), and
`.get("python_summary", ...)` requires the data value to be a dict (else
AttributeError); lines 80 and 91 chain `.get` on the same `results`, so a
single match covers both.  The summary message is appended to the log
(line 84); the lean payload is only rendered transiently (lines 88-91), not
appended; `last_processed_file` is then set (line 94).  The handler is split
here into the guard (`upload_handler`) and the result-display block
(`displayResults`, app.py lines 78-97). -/
def displayResults (s : SessionState) (f : UploadedFile) (ra : AnalysisResult) :
    HandlerResult :=
  match ra.ret with
  | Except.error e => ⟨Except.error e, ra.calls, ra.events⟩
  | Except.ok none => ⟨Except.ok s, ra.calls, ra.events⟩
  | Except.ok (some j) =>
    if pyTruthy j then
      match j with
      | Json.obj fields =>
        match (fields.lookup "data").getD (Json.obj []) with
        | Json.obj dfields =>
          let ps := (dfields.lookup "python_summary").getD (Json.str "No summary available.")
          let summary := "✅ Analysis Complete! " ++ pyStr ps ++ "."
          let leanData := (dfields.lookup "lean").getD (Json.str "No lean data found.")
          ⟨Except.ok { messages := s.messages ++ [⟨"assistant", Content.text summary⟩],
                       last_processed_file := some f.name },
           ra.calls,
           ra.events ++ [UiEvent.write leanIntroText, UiEvent.jsonView leanData]⟩
        | _ => ⟨Except.error PyError.attributeError, ra.calls, ra.events⟩
      | _ => ⟨Except.error PyError.attributeError, ra.calls, ra.events⟩
    else ⟨Except.ok s, ra.calls, ra.events⟩

/-- The full upload handler for one uploaded file: the duplicate guard
(app.py line 69), then `run_analysis` (line 75) and the result display
(lines 78-97). -/
def upload_handler (cfg : Option String) (s : SessionState) (f : UploadedFile)
    (out : HttpOutcome) : HandlerResult :=
  if s.last_processed_file = some f.name then
    ⟨Except.ok s, [], []⟩
  else
    displayResults s f (run_analysis cfg f out)

/-- The session state after one run of the upload handler.  Streamlit keeps
`st.session_state` across an uncaught exception; in this program every raise
happens before any session-state mutation, so a crashed run leaves the state
unchanged. -/
def stepUpload (cfg : Option String) (s : SessionState) (f : UploadedFile)
    (out : HttpOutcome) : SessionState :=
  match (upload_handler cfg s f out).state with
  | Except.ok s1 => s1
  | Except.error _ => s

/-- The fixed assistant reply of the chat-input stub (app.py line 106). -/
def notImplementedText : String := "Follow-up questions are not yet implemented."

/-- Model of the module-level chat-input handler (app.py lines 100-107).
`text` is what `st.chat_input` delivered; the walrus guard
`if prompt := st.chat_input(...)` runs the body only for a truthy (nonempty)
string.  The body appends the user message, then the fixed assistant stub;
it makes no outbound call (second component). -/
def chat_input_handler (s : SessionState) (text : String) :
    SessionState × List OutboundCall :=
  if text = "" then (s, [])
  else
    ({ messages := s.messages ++
         [⟨"user", Content.text text⟩, ⟨"assistant", Content.text notImplementedText⟩],
       last_processed_file := s.last_processed_file },
     [])

/-- One user interaction in a session: a file submission (with the
behaviour of the transport for it) or a chat prompt. -/
inductive Event where
  | upload : UploadedFile → HttpOutcome → Event
  | prompt : String → Event

/-- The session state after one interaction. -/
def step (cfg : Option String) (s : SessionState) (e : Event) : SessionState :=
  match e with
  | Event.upload f out => stepUpload cfg s f out
  | Event.prompt t => (chat_input_handler s t).1

/-- The session state after a sequence of interactions. -/
def runTrace (cfg : Option String) (s : SessionState) : List Event → SessionState
  | [] => s
  | e :: es => runTrace cfg (step cfg s e) es

/-- Whether a parsed body takes the success branch of the upload handler
all the way to `last_processed_file` being set: a truthy (nonempty) JSON
object whose `data` field, when present, is an object. -/
def successBody : Option Json → Bool
  | some (Json.obj fields) =>
      !fields.isEmpty &&
      (match fields.lookup "data" with
       | none => true
       | some (Json.obj _) => true
       | some _ => false)
  | _ => false

/-- Whether a transport outcome drives the success branch of the upload handler:
a response whose status does not make `raise_for_status()` raise (i.e. is
outside [400, 600)) and whose body parses to a `successBody` value. -/
def successOutcome : HttpOutcome → Bool
  | HttpOutcome.raised _ => false
  | HttpOutcome.response status _ js =>
      !(decide (400 ≤ status) && decide (status < 600)) && successBody js

/-- Whether a transport outcome makes the code take its error branch before
any result is returned: an exception before a response existed, or a 4xx/5xx
status — exactly the statuses for which `raise_for_status()` raises. -/
def transportFailure : HttpOutcome → Bool
  | HttpOutcome.raised _ => true
  | HttpOutcome.response status _ _ =>
      decide (400 ≤ status) && decide (status < 600)

/-- Whether one submission is successful: the duplicate guard passes, the
webhook URL is configured and nonempty, and the transport outcome drives the
success branch. -/
def successfulSubmission (cfg : Option String) (s : SessionState)
    (f : UploadedFile) (out : HttpOutcome) : Bool :=
  decide (s.last_processed_file ≠ some f.name) &&
  (match cfg with
   | none => false
   | some url => decide (url ≠ "") && successOutcome out)

/-- The file name an interaction successfully submits (`none` for prompts
and for skipped or failed submissions). -/
def eventSuccessName (cfg : Option String) (s : SessionState) :
    Event → Option String
  | Event.upload f out =>
      if successfulSubmission cfg s f out then some f.name else none
  | Event.prompt _ => none

/-- Spec-side characterization (from the invariant wording of the spec): the name
carried by the most recent successful submission of a trace, `none` when no
submission in the trace succeeded. -/
def specLastSuccess (cfg : Option String) (s : SessionState) :
    List Event → Option String
  | [] => none
  | e :: es =>
    match specLastSuccess cfg (step cfg s e) es with
    | some n => some n
    | none => eventSuccessName cfg s e

/-- Spec-side 2xx success notion, following the spec wording "On success
(2xx with valid JSON body) ... Set last_processed_file = file.name": the
duplicate guard passes, the URL is configured and nonempty, and the
response has a 2xx status with a success-shaped body.  It differs from
`successfulSubmission` (the branch the code actually takes) exactly on
final statuses outside both 2xx and [400, 600). -/
def spec2xxSubmission (cfg : Option String) (s : SessionState)
    (f : UploadedFile) (out : HttpOutcome) : Bool :=
  decide (s.last_processed_file ≠ some f.name) &&
  (match cfg with
   | none => false
   | some url => decide (url ≠ "") &&
     (match out with
      | HttpOutcome.raised _ => false
      | HttpOutcome.response status _ js =>
          (decide (200 ≤ status) && decide (status < 300)) && successBody js))

/-- The file name an interaction submits with a 2xx success in the sense of
the spec (`none` for prompts and for other submissions). -/
def eventSuccess2xxName (cfg : Option String) (s : SessionState) :
    Event → Option String
  | Event.upload f out =>
      if spec2xxSubmission cfg s f out then some f.name else none
  | Event.prompt _ => none

/-- Spec-side characterization with the 2xx success notion of the spec: the
name carried by the most recent 2xx-successful submission of a trace,
`none` when no submission in the trace succeeded with a 2xx status. -/
def specLastSuccess2xx (cfg : Option String) (s : SessionState) :
    List Event → Option String
  | [] => none
  | e :: es =>
    match specLastSuccess2xx cfg (step cfg s e) es with
    | some n => some n
    | none => eventSuccess2xxName cfg s e

/-- The number of structured (dict/list) messages in a message log. -/
def structuredCount (msgs : List Message) : Nat :=
  (msgs.filter fun m =>
    match m.content with
    | Content.json _ => true
    | Content.text _ => false).length

/-- Whether a UI event is an error-surfacing event (`st.error`). -/
def isErrorEvent : UiEvent → Bool
  | UiEvent.errorMsg _ => true
  | UiEvent.errorTransport _ => true
  | UiEvent.errorBody _ => true
  | UiEvent.write _ => false
  | UiEvent.jsonView _ => false

/-- A sample uploaded file used by concrete witnesses and counterexamples. -/
def sampleFile : UploadedFile := ⟨"race1.drf", "RAWBYTES", "text/plain"⟩

/-- The successful response body of the worked example of the spec:
`\x7b"data": \x7b"python_summary": "3 horses analyzed", "lean": \x7b"a": 1\x7d\x7d\x7d`. -/
def exampleBody : Json :=
  Json.obj [("data",
    Json.obj [("python_summary", Json.str "3 horses analyzed"),
              ("lean", Json.obj [("a", Json.num 1)])])]

theorem chat_lpf (s : SessionState) (t : String) :
    ((chat_input_handler s t).1).last_processed_file = s.last_processed_file := by
  unfold chat_input_handler
  split <;> rfl

theorem run_analysis_raised (url : String) (f : UploadedFile) (msg : String)
    (hu : url ≠ "") :
    run_analysis (some url) f (HttpOutcome.raised msg) =
      ⟨[⟨url, "file", f.name, f.bytes, f.mime⟩],
       [UiEvent.errorTransport (TransportDetail.exceptionBeforeResponse msg)],
       Except.error PyError.nameError⟩ := by
  simp only [run_analysis]
  rw [if_neg hu]

theorem run_analysis_ok (url : String) (f : UploadedFile) (status : Nat)
    (text : String) (j : Json) (hu : url ≠ "")
    (herr : ¬(400 ≤ status ∧ status < 600)) :
    run_analysis (some url) f (HttpOutcome.response status text (some j)) =
      ⟨[⟨url, "file", f.name, f.bytes, f.mime⟩], [], Except.ok (some j)⟩ := by
  simp only [run_analysis]
  rw [if_neg hu, if_neg herr]

theorem run_analysis_badjson (url : String) (f : UploadedFile) (status : Nat)
    (text : String) (hu : url ≠ "")
    (herr : ¬(400 ≤ status ∧ status < 600)) :
    run_analysis (some url) f (HttpOutcome.response status text none) =
      ⟨[⟨url, "file", f.name, f.bytes, f.mime⟩],
       [UiEvent.errorTransport TransportDetail.jsonDecodeError, UiEvent.errorBody text],
       Except.ok none⟩ := by
  simp only [run_analysis]
  rw [if_neg hu, if_neg herr]

theorem run_analysis_badstatus (url : String) (f : UploadedFile) (status : Nat)
    (text : String) (js : Option Json) (hu : url ≠ "")
    (herr : 400 ≤ status ∧ status < 600) :
    run_analysis (some url) f (HttpOutcome.response status text js) =
      ⟨[⟨url, "file", f.name, f.bytes, f.mime⟩],
       [UiEvent.errorTransport (TransportDetail.httpStatusError status), UiEvent.errorBody text],
       Except.ok none⟩ := by
  simp only [run_analysis]
  rw [if_neg hu, if_pos herr]

theorem upload_handler_guard (cfg : Option String) (s : SessionState)
    (f : UploadedFile) (out : HttpOutcome)
    (hg : s.last_processed_file ≠ some f.name) :
    upload_handler cfg s f out = displayResults s f (run_analysis cfg f out) := by
  unfold upload_handler
  rw [if_neg hg]

theorem upload_handler_skip (cfg : Option String) (s : SessionState)
    (f : UploadedFile) (out : HttpOutcome)
    (hg : s.last_processed_file = some f.name) :
    upload_handler cfg s f out = ⟨Except.ok s, [], []⟩ := by
  unfold upload_handler
  rw [if_pos hg]

theorem upload_handler_success_eq (url : String) (s : SessionState)
    (f : UploadedFile) (status : Nat) (text : String)
    (fields dfields : List (String × Json))
    (hu : url ≠ "")
    (hg : s.last_processed_file ≠ some f.name)
    (herr : ¬(400 ≤ status ∧ status < 600))
    (hne : fields.isEmpty = false)
    (hdata : (fields.lookup "data").getD (Json.obj []) = Json.obj dfields) :
    upload_handler (some url) s f
        (HttpOutcome.response status text (some (Json.obj fields))) =
      ⟨Except.ok { messages := s.messages ++ [⟨"assistant", Content.text
                     ("✅ Analysis Complete! " ++
                      pyStr ((dfields.lookup "python_summary").getD
                        (Json.str "No summary available.")) ++ ".")⟩],
                   last_processed_file := some f.name },
       [⟨url, "file", f.name, f.bytes, f.mime⟩],
       [UiEvent.write leanIntroText,
        UiEvent.jsonView ((dfields.lookup "lean").getD (Json.str "No lean data found."))]⟩ := by
  rw [upload_handler_guard _ _ _ _ hg, run_analysis_ok url f status text _ hu herr]
  unfold displayResults
  simp only [pyTruthy, hne, Bool.not_false, if_true]
  rw [hdata]
  rfl

theorem stepUpload_not_success (cfg : Option String) (s : SessionState)
    (f : UploadedFile) (out : HttpOutcome)
    (h : successfulSubmission cfg s f out = false) :
    stepUpload cfg s f out = s := by
  unfold stepUpload
  by_cases hg : s.last_processed_file = some f.name
  · rw [upload_handler_skip cfg s f out hg]
  · rw [upload_handler_guard cfg s f out hg]
    cases cfg with
    | none => rfl
    | some url =>
      by_cases hu : url = ""
      · subst hu
        rfl
      · have hout : successOutcome out = false := by
          simp [successfulSubmission, hg, hu] at h
          exact h
        cases out with
        | raised msg =>
          rw [run_analysis_raised url f msg hu]
          rfl
        | response status text js =>
          by_cases herr : 400 ≤ status ∧ status < 600
          · rw [run_analysis_badstatus url f status text js hu herr]
            rfl
          · have hnb : (decide (400 ≤ status) && decide (status < 600)) = false := by
              rcases Nat.lt_or_ge status 400 with hlt | hge
              · have hdf : decide (400 ≤ status) = false := decide_eq_false (by omega)
                simp [hdf]
              · have hdf : decide (status < 600) = false := decide_eq_false (by omega)
                simp [hdf]
            have hbody : successBody js = false := by
              simp only [successOutcome, hnb, Bool.not_false, Bool.true_and] at hout
              exact hout
            cases js with
            | none =>
              rw [run_analysis_badjson url f status text hu herr]
              rfl
            | some j =>
              rw [run_analysis_ok url f status text j hu herr]
              cases j with
              | null => rfl
              | bool b => cases b <;> rfl
              | num n =>
                cases ht : pyTruthy (Json.num n) <;> simp [displayResults, ht]
              | str sx =>
                cases ht : pyTruthy (Json.str sx) <;> simp [displayResults, ht]
              | arr xs =>
                cases ht : pyTruthy (Json.arr xs) <;> simp [displayResults, ht]
              | obj fields =>
                cases hne : fields.isEmpty with
                | true => simp [displayResults, pyTruthy, hne]
                | false =>
                  cases hd : fields.lookup "data" with
                  | none => simp [successBody, hne, hd] at hbody
                  | some v =>
                    cases v with
                    | obj d => simp [successBody, hne, hd] at hbody
                    | null => simp [displayResults, pyTruthy, hne, hd, Option.getD]
                    | bool b => simp [displayResults, pyTruthy, hne, hd, Option.getD]
                    | num n => simp [displayResults, pyTruthy, hne, hd, Option.getD]
                    | str s2 => simp [displayResults, pyTruthy, hne, hd, Option.getD]
                    | arr xs => simp [displayResults, pyTruthy, hne, hd, Option.getD]

theorem stepUpload_success_lpf (cfg : Option String) (s : SessionState)
    (f : UploadedFile) (out : HttpOutcome)
    (h : successfulSubmission cfg s f out = true) :
    (stepUpload cfg s f out).last_processed_file = some f.name := by
  cases cfg with
  | none => simp [successfulSubmission] at h
  | some url =>
    have hg : s.last_processed_file ≠ some f.name := by
      intro hc
      simp [successfulSubmission, hc] at h
    have hu : url ≠ "" := by
      intro hc
      simp [successfulSubmission, hc] at h
    have hout : successOutcome out = true := by
      simp [successfulSubmission, hg, hu] at h
      exact h
    cases out with
    | raised msg => simp [successOutcome] at hout
    | response status text js =>
      cases js with
      | none => simp [successOutcome, successBody] at hout
      | some j =>
        simp only [successOutcome, Bool.and_eq_true, Bool.not_eq_true'] at hout
        obtain ⟨hnb, hb⟩ := hout
        have herr : ¬(400 ≤ status ∧ status < 600) := by
          intro hc
          rw [decide_eq_true hc.1, decide_eq_true hc.2] at hnb
          simp at hnb
        cases j with
        | null => simp [successBody] at hb
        | bool b => simp [successBody] at hb
        | num n => simp [successBody] at hb
        | str s2 => simp [successBody] at hb
        | arr xs => simp [successBody] at hb
        | obj fields =>
          simp only [successBody, Bool.and_eq_true, Bool.not_eq_true'] at hb
          obtain ⟨hne, hdm⟩ := hb
          have hdata : ∃ dfields,
              (fields.lookup "data").getD (Json.obj []) = Json.obj dfields := by
            cases hd : fields.lookup "data" with
            | none => exact ⟨[], rfl⟩
            | some v =>
              cases v with
              | obj d => exact ⟨d, rfl⟩
              | null => rw [hd] at hdm; simp at hdm
              | bool b => rw [hd] at hdm; simp at hdm
              | num n => rw [hd] at hdm; simp at hdm
              | str s2 => rw [hd] at hdm; simp at hdm
              | arr xs => rw [hd] at hdm; simp at hdm
          obtain ⟨dfields, hdata⟩ := hdata
          unfold stepUpload
          rw [upload_handler_success_eq url s f status text fields dfields hu hg
              herr hne hdata]

theorem stepUpload_lpf (cfg : Option String) (s : SessionState)
    (f : UploadedFile) (out : HttpOutcome) :
    (stepUpload cfg s f out).last_processed_file =
      if successfulSubmission cfg s f out then some f.name
      else s.last_processed_file := by
  cases hs : successfulSubmission cfg s f out with
  | true =>
    rw [if_pos rfl]
    exact stepUpload_success_lpf cfg s f out hs
  | false =>
    rw [if_neg (by simp), stepUpload_not_success cfg s f out hs]

theorem runTrace_lpf (cfg : Option String) :
    ∀ (es : List Event) (s : SessionState),
      (runTrace cfg s es).last_processed_file =
        match specLastSuccess cfg s es with
        | some n => some n
        | none => s.last_processed_file := by
  intro es
  induction es with
  | nil =>
    intro s
    rfl
  | cons e es ih =>
    intro s
    rw [runTrace, ih (step cfg s e), specLastSuccess]
    cases hrec : specLastSuccess cfg (step cfg s e) es with
    | some n => simp [hrec]
    | none =>
      simp only [hrec]
      cases e with
      | prompt t => simp [eventSuccessName, step, chat_lpf]
      | upload f out =>
        simp only [step, eventSuccessName]
        rw [stepUpload_lpf]
        cases hs : successfulSubmission cfg s f out <;> simp [hs]

theorem successOutcome_false_of_failure (out : HttpOutcome)
    (hf : transportFailure out = true) : successOutcome out = false := by
  cases out with
  | raised m => rfl
  | response status text js =>
    simp only [transportFailure] at hf
    simp only [successOutcome, hf, Bool.not_true, Bool.false_and]

/-- Claim C7: when the endpoint configuration (MAKE_WEBHOOK_URL) is absent,
every call to the submission function fails immediately: it makes zero
outbound network calls, produces exactly one error-surfacing event, and
returns no result. -/
theorem c7_missing_config_fails_immediately (f : UploadedFile) (out : HttpOutcome) :
    run_analysis none f out =
      ⟨[], [UiEvent.errorMsg configMissingText], Except.ok none⟩ ∧
    ((run_analysis none f out).events.filter isErrorEvent).length = 1 :=
  ⟨rfl, rfl⟩

/-- Claim C9: for every nonempty input text and every prior session state,
the chat-input handler appends exactly two messages in order — a user
message with the given text, then the fixed assistant reply — changes
nothing else, and makes no network call. -/
theorem c9_prompt_appends_two_messages (s : SessionState) (t : String)
    (ht : t ≠ "") :
    chat_input_handler s t =
      ({ messages := s.messages ++
           [⟨"user", Content.text t⟩, ⟨"assistant", Content.text notImplementedText⟩],
         last_processed_file := s.last_processed_file }, []) := by
  unfold chat_input_handler
  rw [if_neg ht]

/-- Witness for C9 at the worked example prompt of the spec. -/
theorem c9_witness :
    chat_input_handler initState "How many favorites won?" =
      ({ messages := initState.messages ++
           [⟨"user", Content.text "How many favorites won?"⟩,
            ⟨"assistant", Content.text notImplementedText⟩],
         last_processed_file := initState.last_processed_file }, []) :=
  c9_prompt_appends_two_messages initState "How many favorites won?" (by decide)

/-- Claim C3 (code bug): when the HTTP post raises before any response
object exists (connection refused), the except branch of run_analysis is
not total — it surfaces only the first error message and then crashes with
a NameError from referencing the undefined response, instead of completing
the error report and returning None. -/
theorem c3_error_branch_crashes_without_response :
    run_analysis (some "https://hook.example") sampleFile
        (HttpOutcome.raised "Connection refused") =
      ⟨[⟨"https://hook.example", "file", "race1.drf", "RAWBYTES", "text/plain"⟩],
       [UiEvent.errorTransport (TransportDetail.exceptionBeforeResponse "Connection refused")],
       Except.error PyError.nameError⟩ := rfl

/-- Counterexample to C1 as stated: for the worked-example response, the
message log gains zero structured messages — the lean payload is never
recorded in the log, so the log does not gain exactly one structured
message equal to the lean payload. -/
theorem c1_lean_payload_not_logged :
    structuredCount (stepUpload (some "https://hook.example") initState sampleFile
        (HttpOutcome.response 200 "" (some exampleBody))).messages = 0 ∧
    ((structuredCount (stepUpload (some "https://hook.example") initState sampleFile
        (HttpOutcome.response 200 "" (some exampleBody))).messages) == 1) = false :=
  ⟨rfl, rfl⟩

/-- Claim C1 (amended): for a successful submission with 2xx JSON response
data.python_summary = "3 horses analyzed" and data.lean = a-object, the
message log gains exactly one assistant message with the text
"✅ Analysis Complete! 3 horses analyzed.", the lean payload is rendered
transiently (not recorded in the log), and last_processed_file is set to
the submitted file name. -/
theorem c1_success_appends_summary_renders_lean_transiently (url : String)
    (s : SessionState) (f : UploadedFile) (status : Nat) (text : String)
    (hu : url ≠ "") (hg : s.last_processed_file ≠ some f.name)
    (h2 : 200 ≤ status ∧ status < 300) :
    upload_handler (some url) s f (HttpOutcome.response status text (some exampleBody)) =
      ⟨Except.ok { messages := s.messages ++
                     [⟨"assistant", Content.text "✅ Analysis Complete! 3 horses analyzed."⟩],
                   last_processed_file := some f.name },
       [⟨url, "file", f.name, f.bytes, f.mime⟩],
       [UiEvent.write leanIntroText,
        UiEvent.jsonView (Json.obj [("a", Json.num 1)])]⟩ :=
  upload_handler_success_eq url s f status text
    [("data", Json.obj [("python_summary", Json.str "3 horses analyzed"),
                        ("lean", Json.obj [("a", Json.num 1)])])]
    [("python_summary", Json.str "3 horses analyzed"),
     ("lean", Json.obj [("a", Json.num 1)])]
    hu hg (by omega) rfl rfl

/-- Witness for the amended C1 at concrete inputs. -/
theorem c1_witness :
    upload_handler (some "https://hook.example") initState sampleFile
        (HttpOutcome.response 200 "" (some exampleBody)) =
      ⟨Except.ok { messages := initState.messages ++
                     [⟨"assistant", Content.text "✅ Analysis Complete! 3 horses analyzed."⟩],
                   last_processed_file := some "race1.drf" },
       [⟨"https://hook.example", "file", "race1.drf", "RAWBYTES", "text/plain"⟩],
       [UiEvent.write leanIntroText,
        UiEvent.jsonView (Json.obj [("a", Json.num 1)])]⟩ :=
  c1_success_appends_summary_renders_lean_transiently "https://hook.example" initState
    sampleFile 200 "" (by decide) (by decide) (by decide)

theorem displayResults_calls (s : SessionState) (f : UploadedFile)
    (ra : AnalysisResult) : (displayResults s f ra).calls = ra.calls := by
  unfold displayResults
  repeat' split
  all_goals rfl

theorem run_analysis_calls (url : String) (f : UploadedFile) (out : HttpOutcome)
    (hu : url ≠ "") :
    (run_analysis (some url) f out).calls =
      [⟨url, "file", f.name, f.bytes, f.mime⟩] := by
  cases out with
  | raised msg => rw [run_analysis_raised url f msg hu]
  | response status text js =>
    by_cases herr : 400 ≤ status ∧ status < 600
    · rw [run_analysis_badstatus url f status text js hu herr]
    · cases js with
      | none => rw [run_analysis_badjson url f status text hu herr]
      | some j => rw [run_analysis_ok url f status text j hu herr]

theorem upload_handler_calls (url : String) (s : SessionState)
    (f : UploadedFile) (out : HttpOutcome) (hu : url ≠ "")
    (hg : s.last_processed_file ≠ some f.name) :
    (upload_handler (some url) s f out).calls =
      [⟨url, "file", f.name, f.bytes, f.mime⟩] := by
  rw [upload_handler_guard _ _ _ _ hg, displayResults_calls,
      run_analysis_calls url f out hu]

/-- Counterexample to C4 as stated: a 2xx response whose body is not valid
JSON does not degrade to placeholder values — the handler surfaces two
error renders (the transport error and the raw body) and appends no
message at all. -/
theorem c4_invalid_json_reports_error :
    upload_handler (some "https://hook.example") initState sampleFile
        (HttpOutcome.response 200 "not json" none) =
      ⟨Except.ok initState,
       [⟨"https://hook.example", "file", "race1.drf", "RAWBYTES", "text/plain"⟩],
       [UiEvent.errorTransport TransportDetail.jsonDecodeError,
        UiEvent.errorBody "not json"]⟩ := rfl

/-- Claim C4 (amended): placeholder degradation happens only for a 2xx body
that is a truthy JSON object: (1) a 2xx body that is not valid JSON is
reported as an error with no new messages; (2) a 2xx empty-object body
produces no new messages and no error; (3) a 2xx nonempty object lacking
the data field degrades to both placeholders; (4) a 2xx non-object body
(here a nonempty array) raises an AttributeError. -/
theorem c4_graceful_degradation_scope :
    (∀ (url : String) (s : SessionState) (f : UploadedFile) (status : Nat) (text : String),
       url ≠ "" → s.last_processed_file ≠ some f.name → 200 ≤ status ∧ status < 300 →
       upload_handler (some url) s f (HttpOutcome.response status text none) =
         ⟨Except.ok s, [⟨url, "file", f.name, f.bytes, f.mime⟩],
          [UiEvent.errorTransport TransportDetail.jsonDecodeError, UiEvent.errorBody text]⟩) ∧
    (∀ (url : String) (s : SessionState) (f : UploadedFile) (status : Nat) (text : String),
       url ≠ "" → s.last_processed_file ≠ some f.name → 200 ≤ status ∧ status < 300 →
       upload_handler (some url) s f (HttpOutcome.response status text (some (Json.obj []))) =
         ⟨Except.ok s, [⟨url, "file", f.name, f.bytes, f.mime⟩], []⟩) ∧
    (∀ (url : String) (s : SessionState) (f : UploadedFile) (status : Nat) (text : String)
       (fields : List (String × Json)),
       url ≠ "" → s.last_processed_file ≠ some f.name → 200 ≤ status ∧ status < 300 →
       fields.isEmpty = false → fields.lookup "data" = none →
       upload_handler (some url) s f (HttpOutcome.response status text (some (Json.obj fields))) =
         ⟨Except.ok { messages := s.messages ++
                        [⟨"assistant", Content.text "✅ Analysis Complete! No summary available.."⟩],
                      last_processed_file := some f.name },
          [⟨url, "file", f.name, f.bytes, f.mime⟩],
          [UiEvent.write leanIntroText, UiEvent.jsonView (Json.str "No lean data found.")]⟩) ∧
    (∀ (url : String) (s : SessionState) (f : UploadedFile) (status : Nat) (text : String)
       (x : Json) (xs : List Json),
       url ≠ "" → s.last_processed_file ≠ some f.name → 200 ≤ status ∧ status < 300 →
       (upload_handler (some url) s f
         (HttpOutcome.response status text (some (Json.arr (x :: xs))))).state =
         Except.error PyError.attributeError) := by
  refine ⟨?_, ?_, ?_, ?_⟩
  · intro url s f status text hu hg h2
    rw [upload_handler_guard _ _ _ _ hg,
        run_analysis_badjson url f status text hu (by omega)]
    rfl
  · intro url s f status text hu hg h2
    rw [upload_handler_guard _ _ _ _ hg,
        run_analysis_ok url f status text _ hu (by omega)]
    rfl
  · intro url s f status text fields hu hg h2 hne hd
    rw [upload_handler_success_eq url s f status text fields [] hu hg (by omega) hne
        (by rw [hd]; rfl)]
    rfl
  · intro url s f status text x xs hu hg h2
    rw [upload_handler_guard _ _ _ _ hg,
        run_analysis_ok url f status text _ hu (by omega)]
    rfl

/-- Witness for the amended C4: a truthy object body with no data field
degrades to both placeholders at concrete inputs. -/
theorem c4_witness :
    upload_handler (some "https://hook.example") initState sampleFile
        (HttpOutcome.response 200 "" (some (Json.obj [("other", Json.num 7)]))) =
      ⟨Except.ok { messages := initState.messages ++
                     [⟨"assistant", Content.text "✅ Analysis Complete! No summary available.."⟩],
                   last_processed_file := some "race1.drf" },
       [⟨"https://hook.example", "file", "race1.drf", "RAWBYTES", "text/plain"⟩],
       [UiEvent.write leanIntroText, UiEvent.jsonView (Json.str "No lean data found.")]⟩ :=
  c4_graceful_degradation_scope.2.2.1 "https://hook.example" initState sampleFile 200 ""
    [("other", Json.num 7)] (by decide) (by decide) (by decide) rfl rfl

/-- Counterexample to C2 as stated: a final 300 status is non-2xx, yet
raise_for_status raises only for 4xx/5xx, so with a truthy JSON object
body the code takes the success path — a summary message is appended and
last_processed_file is set, contradicting the claim for non-2xx statuses
outside 4xx/5xx. -/
theorem c2_status300_takes_success_path :
    (stepUpload (some "https://hook.example") initState sampleFile
        (HttpOutcome.response 300 "" (some exampleBody))).last_processed_file =
      some "race1.drf" ∧
    (stepUpload (some "https://hook.example") initState sampleFile
        (HttpOutcome.response 300 "" (some exampleBody))).messages.length =
      initState.messages.length + 1 :=
  ⟨rfl, rfl⟩

/-- Claim C2 (amended): a submission that ends in a transport failure in
the sense of the code — an exception before a response existed, or a
4xx/5xx status, exactly the statuses for which raise_for_status raises —
appends no message and leaves last_processed_file unchanged (the session
state is unchanged), and resubmitting the same filename afterwards
triggers a new outbound call. -/
theorem c2_failure_appends_nothing_and_allows_retry (url : String)
    (s : SessionState) (f : UploadedFile) (out retryOut : HttpOutcome)
    (hu : url ≠ "") (hg : s.last_processed_file ≠ some f.name)
    (hf : transportFailure out = true) :
    stepUpload (some url) s f out = s ∧
    (upload_handler (some url) (stepUpload (some url) s f out) f retryOut).calls =
      [⟨url, "file", f.name, f.bytes, f.mime⟩] := by
  have hns : successfulSubmission (some url) s f out = false := by
    simp [successfulSubmission, successOutcome_false_of_failure out hf]
  have h1 := stepUpload_not_success (some url) s f out hns
  exact ⟨h1, by rw [h1]; exact upload_handler_calls url s f retryOut hu hg⟩

/-- Witness for C2 at a connection-refused outcome and a concrete retry. -/
theorem c2_witness :
    stepUpload (some "https://hook.example") initState sampleFile
        (HttpOutcome.raised "Connection refused") = initState ∧
    (upload_handler (some "https://hook.example")
        (stepUpload (some "https://hook.example") initState sampleFile
          (HttpOutcome.raised "Connection refused"))
        sampleFile (HttpOutcome.response 200 "" (some exampleBody))).calls =
      [⟨"https://hook.example", "file", "race1.drf", "RAWBYTES", "text/plain"⟩] :=
  c2_failure_appends_nothing_and_allows_retry "https://hook.example" initState sampleFile
    (HttpOutcome.raised "Connection refused") (HttpOutcome.response 200 "" (some exampleBody))
    (by decide) (by decide) rfl

/-- Claim C5: after a successful submission, resubmitting a file with the
same name makes no request and appends no messages — the pair of
submissions makes exactly one outbound call in total. -/
theorem c5_duplicate_filename_single_call (url : String) (s : SessionState)
    (f g : UploadedFile) (status : Nat) (text : String)
    (fields dfields : List (String × Json)) (retryOut : HttpOutcome)
    (hu : url ≠ "") (hg : s.last_processed_file ≠ some f.name)
    (h2 : 200 ≤ status ∧ status < 300)
    (hne : fields.isEmpty = false)
    (hdata : (fields.lookup "data").getD (Json.obj []) = Json.obj dfields)
    (hname : g.name = f.name) :
    (upload_handler (some url) s f
        (HttpOutcome.response status text (some (Json.obj fields)))).calls =
      [⟨url, "file", f.name, f.bytes, f.mime⟩] ∧
    ∃ s1,
      (upload_handler (some url) s f
          (HttpOutcome.response status text (some (Json.obj fields)))).state =
        Except.ok s1 ∧
      s1.last_processed_file = some f.name ∧
      upload_handler (some url) s1 g retryOut = ⟨Except.ok s1, [], []⟩ := by
  rw [upload_handler_success_eq url s f status text fields dfields hu hg (by omega) hne
      hdata]
  refine ⟨rfl, _, rfl, rfl, ?_⟩
  apply upload_handler_skip
  rw [hname]

/-- Witness for C5: a successful submission of race1.drf followed by a
second file of the same name makes no second call and leaves the state
unchanged. -/
theorem c5_witness :
    (upload_handler (some "https://hook.example") initState sampleFile
        (HttpOutcome.response 200 ""
          (some (Json.obj [("data", Json.obj [("python_summary", Json.str "3 horses analyzed"),
                                              ("lean", Json.obj [("a", Json.num 1)])])])))).calls =
      [⟨"https://hook.example", "file", "race1.drf", "RAWBYTES", "text/plain"⟩] ∧
    ∃ s1,
      (upload_handler (some "https://hook.example") initState sampleFile
          (HttpOutcome.response 200 ""
            (some (Json.obj [("data", Json.obj [("python_summary", Json.str "3 horses analyzed"),
                                                ("lean", Json.obj [("a", Json.num 1)])])])))).state =
        Except.ok s1 ∧
      s1.last_processed_file = some "race1.drf" ∧
      upload_handler (some "https://hook.example") s1 ⟨"race1.drf", "OTHERBYTES", "text/csv"⟩
          (HttpOutcome.response 200 "" (some exampleBody)) =
        ⟨Except.ok s1, [], []⟩ :=
  c5_duplicate_filename_single_call "https://hook.example" initState sampleFile
    ⟨"race1.drf", "OTHERBYTES", "text/csv"⟩ 200 ""
    [("data", Json.obj [("python_summary", Json.str "3 horses analyzed"),
                        ("lean", Json.obj [("a", Json.num 1)])])]
    [("python_summary", Json.str "3 horses analyzed"), ("lean", Json.obj [("a", Json.num 1)])]
    (HttpOutcome.response 200 "" (some exampleBody))
    (by decide) (by decide) (by decide) rfl rfl rfl

/-- Claim C6: two submissions with distinct names each make exactly one
outbound call, and each call is a single-part multipart POST carrying the
respective file name, raw bytes, and declared MIME type under the field
name file. -/
theorem c6_distinct_names_two_multipart_calls (url : String) (s : SessionState)
    (f1 f2 : UploadedFile) (out1 out2 : HttpOutcome)
    (hu : url ≠ "") (hg1 : s.last_processed_file ≠ some f1.name)
    (hg2 : s.last_processed_file ≠ some f2.name)
    (hnames : f1.name ≠ f2.name) :
    (upload_handler (some url) s f1 out1).calls =
      [⟨url, "file", f1.name, f1.bytes, f1.mime⟩] ∧
    (upload_handler (some url) (stepUpload (some url) s f1 out1) f2 out2).calls =
      [⟨url, "file", f2.name, f2.bytes, f2.mime⟩] := by
  refine ⟨upload_handler_calls url s f1 out1 hu hg1, ?_⟩
  apply upload_handler_calls url _ f2 out2 hu
  rw [stepUpload_lpf]
  by_cases hs : successfulSubmission (some url) s f1 out1 = true
  · rw [if_pos hs]
    simpa using hnames
  · rw [if_neg hs]
    exact hg2

/-- Witness for C6: race1.drf (successful) then race2.drf (failed) each
make exactly one call with the respective multipart payload. -/
theorem c6_witness :
    (upload_handler (some "https://hook.example") initState sampleFile
        (HttpOutcome.response 200 "" (some exampleBody))).calls =
      [⟨"https://hook.example", "file", "race1.drf", "RAWBYTES", "text/plain"⟩] ∧
    (upload_handler (some "https://hook.example")
        (stepUpload (some "https://hook.example") initState sampleFile
          (HttpOutcome.response 200 "" (some exampleBody)))
        ⟨"race2.drf", "B2", "text/csv"⟩ (HttpOutcome.raised "timeout")).calls =
      [⟨"https://hook.example", "file", "race2.drf", "B2", "text/csv"⟩] :=
  c6_distinct_names_two_multipart_calls "https://hook.example" initState sampleFile
    ⟨"race2.drf", "B2", "text/csv"⟩ (HttpOutcome.response 200 "" (some exampleBody))
    (HttpOutcome.raised "timeout") (by decide) (by decide) (by decide) (by decide)

/-- Claim C8: for a 2xx valid-JSON response whose data object lacks
python_summary, the appended summary message uses the fixed placeholder
text in place of the summary instead of failing. -/
theorem c8_missing_summary_placeholder (url : String) (s : SessionState)
    (f : UploadedFile) (status : Nat) (text : String)
    (fields dfields : List (String × Json))
    (hu : url ≠ "") (hg : s.last_processed_file ≠ some f.name)
    (h2 : 200 ≤ status ∧ status < 300)
    (hdata : fields.lookup "data" = some (Json.obj dfields))
    (hps : dfields.lookup "python_summary" = none) :
    ∃ s1,
      (upload_handler (some url) s f
          (HttpOutcome.response status text (some (Json.obj fields)))).state =
        Except.ok s1 ∧
      s1.messages = s.messages ++
        [⟨"assistant", Content.text "✅ Analysis Complete! No summary available.."⟩] := by
  have hne : fields.isEmpty = false := by
    cases fields with
    | nil => simp at hdata
    | cons a l => rfl
  rw [upload_handler_success_eq url s f status text fields dfields hu hg (by omega) hne
      (by rw [hdata]; rfl)]
  refine ⟨_, rfl, ?_⟩
  rw [hps]
  rfl

/-- Witness for C8 at a concrete response whose data object has only a
lean field. -/
theorem c8_witness :
    ∃ s1,
      (upload_handler (some "https://hook.example") initState sampleFile
          (HttpOutcome.response 200 ""
            (some (Json.obj [("data", Json.obj [("lean", Json.num 5)])])))).state =
        Except.ok s1 ∧
      s1.messages = initState.messages ++
        [⟨"assistant", Content.text "✅ Analysis Complete! No summary available.."⟩] :=
  c8_missing_summary_placeholder "https://hook.example" initState sampleFile 200 ""
    [("data", Json.obj [("lean", Json.num 5)])] [("lean", Json.num 5)]
    (by decide) (by decide) (by decide) rfl rfl

/-- Counterexample to C10 as stated: after a single submission answered
with a final 300 status and a truthy JSON object body, last_processed_file
is set to the file name although no submission succeeded in the 2xx sense
of the spec — so last_processed_file does not equal the name of the most
recent 2xx-successful submission (which would be none). -/
theorem c10_non2xx_sets_last_processed_file :
    (runTrace (some "https://hook.example") initState
        [Event.upload sampleFile
          (HttpOutcome.response 300 "" (some exampleBody))]).last_processed_file =
      some "race1.drf" ∧
    specLastSuccess2xx (some "https://hook.example") initState
        [Event.upload sampleFile (HttpOutcome.response 300 "" (some exampleBody))] =
      none :=
  ⟨rfl, rfl⟩

/-- Claim C10 (amended): in every reachable session state,
last_processed_file equals the name carried by the most recent submission
of the trace that took the success path of the code — any final status for
which raise_for_status does not raise (outside 4xx/5xx) with a truthy JSON
object body whose data field, when present, is an object — none when no
such submission occurred; failed and skipped submissions leave it
unchanged, and the chat-input handler never changes it. -/
theorem c10_last_processed_file_invariant (cfg : Option String) (es : List Event) :
    (runTrace cfg initState es).last_processed_file = specLastSuccess cfg initState es ∧
    (∀ (s : SessionState) (t : String),
      ((chat_input_handler s t).1).last_processed_file = s.last_processed_file) := by
  constructor
  · rw [runTrace_lpf cfg es initState]
    cases h : specLastSuccess cfg initState es with
    | some n => rfl
    | none => rfl
  · exact chat_lpf
